import Mathlib

/-!
# Verification of the kubectl-logs pipeline

Shallow embedding of `src/tools/kubectl-logs.ts`: the log-request pipeline
that resolves a logical resource (pod / deployment / job / cronjob /
label-group) to a set of pods, fans out one external log fetch per pod,
classifies failures from their message text, and assembles one report.

External process invocations (`execFileSync`) are modelled by an oracle
`Env : List String → Except CmdError String` mapping the argument list of an
invocation to its captured standard output, or to a failure carrying the
exit status and message.  The JSON report envelopes produced by the
TypeScript code (`JSON.stringify` of a result object) are modelled by the
structured type `LogPayload`, one constructor per result shape; a thrown
`McpError` is modelled by the `Except.error` side of `kubectlLogs`.

JavaScript string primitives used by the source (`trim`, `split`,
`includes`, `toLowerCase`, one-character global `replace`, and the three
regular-expression captures of `handleCommandError`) are given explicit
character-list models below.
-/

namespace KubectlLogs

/-- Exit status and message text of a failed external command invocation
(the fields of the caught `execFileSync` error that the source inspects). -/
structure CmdError where
  status : Option Nat
  message : String
deriving DecidableEq

/-- Oracle for external process invocations: the `kubectl` argument list of an
invocation determines its captured standard output or its failure. -/
abbrev Env : Type := List String → Except CmdError String

/-- The input object of `kubectlLogs` (`resourceType`, `name`, `namespace`,
optional log options, optional `labelSelector`, `context`). -/
structure LogInput where
  resourceType : String
  name : String
  namespace_ : String
  container : Option String := none
  tail : Option Int := none
  since : Option String := none
  sinceTime : Option String := none
  timestamps : Bool := false
  previous : Bool := false
  follow : Bool := false
  labelSelector : Option String := none
  context : String
deriving DecidableEq

/-! ## JavaScript string primitives -/

/-- Whitespace characters removed by `String.prototype.trim` (ASCII model). -/
def isJsWs (c : Char) : Bool :=
  c == ' ' || c == '\t' || c == '\n' || c == '\r'

/-- JS `String.prototype.trim`. -/
def jsTrim (s : String) : String :=
  String.mk (((s.data.dropWhile isJsWs).reverse.dropWhile isJsWs).reverse)

/-- JS `String.prototype.split` with a one-character separator, on characters. -/
def splitChars (sep : Char) : List Char → List (List Char)
  | [] => [[]]
  | c :: rest =>
    if c == sep then [] :: splitChars sep rest
    else
      match splitChars sep rest with
      | [] => [[c]]
      | h :: t => (c :: h) :: t

/-- JS `String.prototype.split` with a one-character separator string. -/
def jsSplit (s : String) (sep : Char) : List String :=
  (splitChars sep s.data).map String.mk

/-- `leadsWith pat s` holds when `pat` begins `s` (character-list test). -/
def leadsWith : List Char → List Char → Bool
  | [], _ => true
  | _ :: _, [] => false
  | a :: as, b :: bs => a == b && leadsWith as bs

/-- Substring occurrence on character lists. -/
def includesChars (sub : List Char) : List Char → Bool
  | [] => sub.isEmpty
  | c :: rest => leadsWith sub (c :: rest) || includesChars sub rest

/-- JS `String.prototype.includes`. -/
def strIncludes (s sub : String) : Bool :=
  includesChars sub.data s.data

/-- JS `String.prototype.toLowerCase` (ASCII model). -/
def jsToLower (s : String) : String :=
  String.mk (s.data.map Char.toLower)

/-- JS `String.prototype.replace` with a global one-character pattern. -/
def replaceChar (pat repl : Char) (s : String) : String :=
  String.mk (s.data.map (fun c => if c == pat then repl else c))

/-- JS `Array.prototype.join`. -/
def joinWith (sep : String) : List String → String
  | [] => ""
  | [x] => x
  | x :: xs => x ++ sep ++ joinWith sep xs

/-- JS truthiness of an optional string (`undefined` and `""` are falsy). -/
def strTruthy : Option String → Bool
  | none => false
  | some s => s != ""

/-- First-match capture of a regular expression of the shape
`marker([^c]+)` (when `requireStop = false`) or `marker([^c]+)c`
(when `requireStop = true`), where `c` is the character class `stop`:
the engine tries each start position left to right; at a position the
literal `marker` must match, followed by a non-empty maximal run of
non-`stop` characters, followed (if required) by a `stop` character. -/
def scanCapture (marker : List Char) (stop : Char → Bool) (requireStop : Bool) :
    List Char → Option (List Char)
  | [] => none
  | c :: rest =>
    if leadsWith marker (c :: rest) then
      let after := (c :: rest).drop marker.length
      let cap := after.takeWhile (fun ch => !stop ch)
      if cap.length ≠ 0 ∧ (requireStop = false ∨ cap.length < after.length) then
        some cap
      else scanCapture marker stop requireStop rest
    else scanCapture marker stop requireStop rest

/-- String wrapper around `scanCapture`. -/
def matchCapture (s marker : String) (stop : Char → Bool) (requireStop : Bool) :
    Option String :=
  (scanCapture marker.data stop requireStop s.data).map String.mk

/-! ## Error classification (`handleCommandError`) -/

/-- `/for pod ([^,]+)/` applied to the failure message; `"unknown"` when absent. -/
def extractPodName (msg : String) : String :=
  (matchCapture msg "for pod " (fun c => c == ',') false).getD "unknown"

/-- `.split(" ").map(c => c.trim())` applied to a bracketed container list. -/
def splitTrim (s : String) : List String :=
  (jsSplit s ' ').map jsTrim

/-- `/choose one of: \[([^\]]+)\]/` capture, split on spaces and trimmed;
empty when the fragment is absent. -/
def extractContainers (msg : String) : List String :=
  match matchCapture msg "choose one of: [" (fun c => c == ']') true with
  | some cap => splitTrim cap
  | none => []

/-- `/or one of the init containers: \[([^\]]+)\]/` capture, split on spaces
and trimmed; empty when the fragment is absent. -/
def extractInitContainers (msg : String) : List String :=
  match matchCapture msg "or one of the init containers: [" (fun c => c == ']') true with
  | some cap => splitTrim cap
  | none => []

/-- The synthesized not-found message. -/
def notFoundMessage (resourceDescription : String) : String :=
  "Resource " ++ resourceDescription ++ " not found"

/-- The fixed `error` field of the multi-container payload. -/
def multiContainerErrorText : String :=
  "Multi-container pod requires container specification"

/-- The `suggestion` field of the multi-container payload. -/
def suggestionMessage (containers initContainers : List String) : String :=
  "Please specify a container name using the \x27container\x27 parameter. Available containers: "
    ++ joinWith ", " containers
    ++ (if initContainers.length > 0 then
          ". Init containers: " ++ joinWith ", " initContainers
        else "")

/-- The `error` field of the general failure payload. -/
def generalMessage (resourceDescription msg : String) : String :=
  "Failed to get logs for " ++ resourceDescription ++ ": " ++ msg

/-- The `message` field of the empty pod-set report of `getLabelSelectorLogs`. -/
def noPodsMessage (labelSelector ns : String) : String :=
  "No pods found with label selector \"" ++ labelSelector ++ "\" in namespace " ++ ns

/-- The `message` field of the empty job-set report of the cronjob branch. -/
def noJobsMessage (name ns : String) : String :=
  "No jobs found for cronjob " ++ name ++ " in namespace " ++ ns

/-- The result envelopes the pipeline serialises to JSON, one constructor per
shape produced by the source. -/
inductive LogPayload where
  | podLogs (name logs : String)
  | noPods (message : String)
  | selectorLogs (selector namespace_ : String) (logs : List (String × String))
  | noJobs (message : String)
  | cronjobLogs (cronjob namespace_ : String)
      (jobs : List (String × Option (List (String × String))))
  | errNotFound (error : String)
  | errMultiContainer (error podName : String)
      (availableContainers initContainers : List String) (suggestion : String)
  | errGeneral (error originalError : String)
deriving DecidableEq

/-- The `status` field of a classified failure payload. -/
def payloadStatus : LogPayload → Option String
  | .errNotFound _ => some "not_found"
  | .errMultiContainer _ _ _ _ _ => some "multi_container_error"
  | .errGeneral _ _ => some "general_error"
  | _ => none

/-- Whether the envelope carries the `isError: true` flag in the source. -/
def payloadIsError : LogPayload → Bool
  | .errNotFound _ => true
  | .errMultiContainer _ _ _ _ _ => true
  | .errGeneral _ _ => true
  | _ => false

/-- `handleCommandError`: classify a failed external invocation from its exit
status and message text. -/
def handleCommandError (error : CmdError) (resourceDescription : String) : LogPayload :=
  if error.status = some 404 ∨ strIncludes error.message "not found" = true then
    .errNotFound (notFoundMessage resourceDescription)
  else if strIncludes error.message "a container name must be specified" = true then
    let podName := extractPodName error.message
    let containers := extractContainers error.message
    let initContainers := extractInitContainers error.message
    .errMultiContainer multiContainerErrorText podName containers initContainers
      (suggestionMessage containers initContainers)
  else
    .errGeneral (generalMessage resourceDescription error.message) error.message

/-! ## Command argument construction -/

/-- `addLogOptions`: append the common log options to an argument list. -/
def addLogOptions (args : List String) (input : LogInput) : List String :=
  let a := args
  let a := match input.tail with
    | some t => a ++ ["--tail=" ++ toString t]
    | none => a
  let a := match input.since with
    | some s => if s == "" then a else a ++ ["--since=" ++ s]
    | none => a
  let a := match input.sinceTime with
    | some s => if s == "" then a else a ++ ["--since-time=" ++ s]
    | none => a
  let a := if input.timestamps then a ++ ["--timestamps"] else a
  let a := if input.previous then a ++ ["--previous"] else a
  let a := if input.follow then a ++ ["--follow"] else a
  a

/-- The literal `-o` value used by the pod and job listings. -/
def jsonpathNames : String := "jsonpath=\x27\x7b.items[*].metadata.name\x7d\x27"

/-- Argument list of the pod-discovery listing for a label selector. -/
def podsListArgs (context ns labelSelector : String) : List String :=
  ["--context", context, "-n", ns, "get", "pods", "--selector=" ++ labelSelector,
   "-o", jsonpathNames]

/-- Argument list of the dependent-job discovery listing of the cronjob branch. -/
def jobsListArgs (context ns name : String) : List String :=
  ["--context", context, "-n", ns, "get", "jobs", "--selector=job-name=" ++ name,
   "-o", jsonpathNames]

/-- Argument list of the deployment match-labels read. -/
def deploymentSelectorArgs (context ns name : String) : List String :=
  ["--context", context, "-n", ns, "get", "deployment", name,
   "-o", "jsonpath=\x27\x7b.spec.selector.matchLabels\x7d\x27"]

/-- Argument list of one log fetch for a named pod. -/
def podLogArgs (context ns pod : String) (input : LogInput) : List String :=
  let base := ["--context", context, "-n", ns, "logs", pod]
  let base := match input.container with
    | some c => if c == "" then base else base ++ ["-c", c]
    | none => base
  addLogOptions base input

/-- `formatLogOutput`: the single-pod success envelope. -/
def formatLogOutput (resourceName logOutput : String) : LogPayload :=
  .podLogs resourceName logOutput

/-! ## Fan-out over a discovered pod set -/

/-- JS object property assignment `m[k] = v` on an insertion-ordered record:
an existing key keeps its position and gets the new value, a new key is
appended. -/
def recordInsert {α : Type} (m : List (String × α)) (k : String) (v : α) :
    List (String × α) :=
  if k ∈ m.map Prod.fst then
    m.map (fun e => if e.1 = k then (e.1, v) else e)
  else m ++ [(k, v)]

/-- The value recorded for one pod of the fan-out: the raw log text on
success, the error-marked message on failure. -/
def fetchEntry (env : Env) (input : LogInput) (context ns pod : String) : String :=
  match env (podLogArgs context ns pod input) with
  | .ok logs => logs
  | .error e => "Error: " ++ e.message

/-- Whether the log fetch for one pod fails under `env`. -/
def fetchFails (env : Env) (input : LogInput) (context ns pod : String) : Bool :=
  match env (podLogArgs context ns pod input) with
  | .ok _ => false
  | .error _ => true

/-- The per-pod loop of `getLabelSelectorLogs`: one fetch per pod, skipping
empty names, each outcome recorded under the pod's key. -/
def buildLogsMap (env : Env) (input : LogInput) (context ns : String) :
    List String → List (String × String) → List (String × String)
  | [], acc => acc
  | pod :: rest, acc =>
    if pod = "" then buildLogsMap env input context ns rest acc
    else
      buildLogsMap env input context ns rest
        (recordInsert acc pod (fetchEntry env input context ns pod))

/-- `getLabelSelectorLogs`: discover the pods matching a label selector, fan
out one log fetch per pod, and assemble the report. -/
def getLabelSelectorLogs (env : Env) (labelSelector ns : String) (input : LogInput)
    (context : String) : LogPayload :=
  match env (podsListArgs context ns labelSelector) with
  | .error e => handleCommandError e ("pods with selector \"" ++ labelSelector ++ "\"")
  | .ok raw =>
    let pods := jsSplit (jsTrim raw) ' '
    if pods.length = 0 ∨ (pods.length = 1 ∧ pods.headD "" = "") then
      .noPods (noPodsMessage labelSelector ns)
    else
      .selectorLogs labelSelector ns (buildLogsMap env input context ns pods [])

/-! ## Cronjob two-level aggregation -/

/-- The `.logs` property access performed on a parsed per-job result in the
cronjob loop: present only on the selector-logs envelope. -/
def extractLogsField : LogPayload → Option (List (String × String))
  | .selectorLogs _ _ m => some m
  | _ => none

/-- The per-job loop of the cronjob branch: each dependent job's flat
aggregation (its `logs` field) recorded under the job's key. -/
def buildJobLogs (env : Env) (input : LogInput) (context ns : String) :
    List String → List (String × Option (List (String × String))) →
    List (String × Option (List (String × String)))
  | [], acc => acc
  | job :: rest, acc =>
    buildJobLogs env input context ns rest
      (recordInsert acc job
        (extractLogsField (getLabelSelectorLogs env ("job-name=" ++ job) ns input context)))

/-! ## Deployment match-labels parsing -/

/-- Skip JSON whitespace. -/
def skipWs : List Char → List Char
  | [] => []
  | c :: rest => if isJsWs c then skipWs rest else c :: rest

/-- JSON string escape resolution (common escapes; others map to themselves). -/
def unescapeChar (c : Char) : Char :=
  if c == 'n' then '\n' else if c == 't' then '\t' else if c == 'r' then '\r' else c

/-- Parse the remainder of a JSON string after its opening quote, returning
the content and the rest of the input. -/
def parseStrChars : List Char → Option (List Char × List Char)
  | [] => none
  | '"' :: rest => some ([], rest)
  | '\\' :: e :: rest =>
    match parseStrChars rest with
    | some (cs, r) => some (unescapeChar e :: cs, r)
    | none => none
  | c :: rest =>
    match parseStrChars rest with
    | some (cs, r) => some (c :: cs, r)
    | none => none

/-- Parse one or more `"key":"value"` pairs followed by the closing brace. -/
def parsePairsAux : Nat → List Char → Option (List (String × String) × List Char)
  | 0, _ => none
  | fuel + 1, l =>
    match skipWs l with
    | '"' :: rest =>
      match parseStrChars rest with
      | none => none
      | some (key, r1) =>
        match skipWs r1 with
        | ':' :: r2 =>
          match skipWs r2 with
          | '"' :: r3 =>
            match parseStrChars r3 with
            | none => none
            | some (val, r4) =>
              match skipWs r4 with
              | ',' :: r5 =>
                match parsePairsAux fuel r5 with
                | some (pairs, r6) => some ((String.mk key, String.mk val) :: pairs, r6)
                | none => none
              | '\x7d' :: r5 => some ([(String.mk key, String.mk val)], r5)
              | _ => none
          | _ => none
        | _ => none
    | _ => none

/-- Modelled from the spec: the platform JSON parser (`JSON.parse`) composed
with `Object.entries`, as used on the deployment's match-labels payload.
The source hands the (apostrophe-to-quote rewritten) jsonpath output to the
runtime's JSON parser and enumerates the resulting object's own properties in
insertion order; match-labels payloads are flat string-valued objects, so the
parser is modelled for exactly that sub-language, and every other input is a
parse failure. -/
def parseMatchLabels (s : String) : Option (List (String × String)) :=
  match skipWs s.data with
  | '\x7b' :: rest =>
    match skipWs rest with
    | '\x7d' :: r2 => if (skipWs r2).isEmpty then some [] else none
    | _ =>
      match parsePairsAux (rest.length + 1) rest with
      | some (pairs, r) => if (skipWs r).isEmpty then some pairs else none
      | none => none
  | _ => none

/-- Modelled from the spec: the diagnostic message of the runtime's JSON
parse failure (`SyntaxError.message`), a platform-defined string that contains
neither the not-found nor the multi-container marker; modelled as a fixed
representative. -/
def jsonSyntaxErrorMessage : String := "Unexpected token in JSON"

/-! ## Top-level request handling (`kubectlLogs`) -/

/-- The error codes of a thrown `McpError` that this pipeline uses. -/
inductive McpErrorCode where
  | invalidRequest
  | internalError
deriving DecidableEq

/-- A thrown `McpError`. -/
structure McpFailure where
  code : McpErrorCode
  message : String
deriving DecidableEq

instance {ε α : Type} [DecidableEq ε] [DecidableEq α] : DecidableEq (Except ε α)
  | .ok a, .ok b =>
    if h : a = b then .isTrue (congrArg Except.ok h)
    else .isFalse (fun hh => h (Except.ok.inj hh))
  | .ok _, .error _ => .isFalse (fun hh => Except.noConfusion hh)
  | .error _, .ok _ => .isFalse (fun hh => Except.noConfusion hh)
  | .error a, .error b =>
    if h : a = b then .isTrue (congrArg Except.error h)
    else .isFalse (fun hh => h (Except.error.inj hh))

/-- `input.namespace || "default"`. -/
def nsOf (input : LogInput) : String :=
  if input.namespace_ = "" then "default" else input.namespace_

/-- `kubectlLogs`: the top-level request handler.  A returned envelope is
`.ok`, a thrown `McpError` is `.error`. -/
def kubectlLogs (env : Env) (input : LogInput) : Except McpFailure LogPayload :=
  if jsToLower input.resourceType = "pod" then
    match env (podLogArgs input.context (nsOf input) input.name input) with
    | .ok result => .ok (formatLogOutput input.name result)
    | .error e => .ok (handleCommandError e ("pod " ++ input.name))
  else if jsToLower input.resourceType = "deployment" ∨
      jsToLower input.resourceType = "job" ∨
      jsToLower input.resourceType = "cronjob" then
    if jsToLower input.resourceType = "job" then
      .ok (getLabelSelectorLogs env ("job-name=" ++ input.name) (nsOf input) input
        input.context)
    else if jsToLower input.resourceType = "cronjob" then
      match env (jobsListArgs input.context (nsOf input) input.name) with
      | .error e => .ok (handleCommandError e ("cronjob " ++ input.name))
      | .ok raw =>
        let jobs := jsSplit (jsTrim raw) ' '
        if jobs.length = 0 ∨ (jobs.length = 1 ∧ jobs.headD "" = "") then
          .ok (.noJobs (noJobsMessage input.name (nsOf input)))
        else
          .ok (.cronjobLogs input.name (nsOf input)
            (buildJobLogs env input input.context (nsOf input) jobs []))
    else
      match env (deploymentSelectorArgs input.context (nsOf input) input.name) with
      | .error e => .ok (handleCommandError e ("deployment " ++ input.name))
      | .ok rawSel =>
        match parseMatchLabels (replaceChar '\x27' '"' (jsTrim rawSel)) with
        | none =>
          .ok (handleCommandError ⟨none, jsonSyntaxErrorMessage⟩
            ("deployment " ++ input.name))
        | some entries =>
          .ok (getLabelSelectorLogs env
            (joinWith "," (entries.map (fun kv => kv.1 ++ "=" ++ kv.2)))
            (nsOf input) input input.context)
  else if strTruthy input.labelSelector then
    .ok (getLabelSelectorLogs env (input.labelSelector.getD "") (nsOf input) input
      input.context)
  else
    .error ⟨.invalidRequest, "Unsupported resource type: " ++ jsToLower input.resourceType⟩

/-! ## Concrete witness data -/

/-- A representative multi-container failure message from the external tool. -/
def wmsgMulti : String :=
  "error: a container name must be specified for pod web-1, choose one of: [app sidecar] or one of the init containers: [init]"

/-- A failure message containing both the not-found marker and the
multi-container marker. -/
def wmsgBoth : String :=
  "pods web-1 not found; a container name must be specified for pod web-1, choose one of: [app]"

/-- A label-group request used by fan-out witnesses. -/
def winSel : LogInput :=
  { resourceType := "service", name := "x", namespace_ := "default",
    labelSelector := some "app=x", context := "ctx" }

/-- Environment for the C1 witness: three discovered pods, the second fetch
fails. -/
def wenvC1 : Env := fun args =>
  if args = podsListArgs "ctx" "default" "app=x" then .ok "p1 p2 p3"
  else if args = podLogArgs "ctx" "default" "p2" winSel then .error ⟨some 1, "boom"⟩
  else .ok "log-text"

/-- Environment for the C1 counterexample: two discovered pods, the second
fetch failing with a message that satisfies the classifier's not-found rule. -/
def wenvC1nf : Env := fun args =>
  if args = podsListArgs "ctx" "default" "app=x" then .ok "p1 p2"
  else if args = podLogArgs "ctx" "default" "p2" winSel then
    .error ⟨some 1, "pods \"p2\" not found"⟩
  else .ok "log-text"

/-- Environment for the C4 witness: the pod listing returns the empty string. -/
def wenvC4 : Env := fun args =>
  if args = podsListArgs "ctx" "default" "app=z" then .ok "" else .ok "x"

/-- A deployment log request. -/
def winDep : LogInput :=
  { resourceType := "deployment", name := "web", namespace_ := "default", context := "c" }

/-- Environment whose deployment read yields match-labels
`{app: "x", tier: "web"}` and whose derived-selector listing finds no pods. -/
def wenvDepGood : Env := fun args =>
  if args = deploymentSelectorArgs "c" "default" "web" then
    .ok "\x7b\"app\":\"x\",\"tier\":\"web\"\x7d"
  else .ok ""

/-- Environment whose deployment read fails with a not-found message. -/
def wenvDepBad : Env := fun args =>
  if args = deploymentSelectorArgs "c" "default" "web" then
    .error ⟨some 1, "deployments.apps \"web\" not found"⟩
  else .ok ""

/-- A cronjob log request. -/
def winCron : LogInput :=
  { resourceType := "cronjob", name := "cj", namespace_ := "default", context := "c" }

/-- Environment whose dependent-job discovery returns the empty string. -/
def wenvCronEmpty : Env := fun args =>
  if args = jobsListArgs "c" "default" "cj" then .ok "" else .ok "x"

/-- Environment with two dependent jobs: `j1` backed by pod `p1` (whose fetch
succeeds), `j2` backed by no pods. -/
def wenvCronJobs : Env := fun args =>
  if args = jobsListArgs "c" "default" "cj" then .ok "j1 j2"
  else if args = podsListArgs "c" "default" "job-name=j1" then .ok "p1"
  else if args = podsListArgs "c" "default" "job-name=j2" then .ok ""
  else if args = podLogArgs "c" "default" "p1" winCron then .ok "L1"
  else .ok "zz"

/-- Environment with one dependent job backed by no pods. -/
def wenvCronOne : Env := fun args =>
  if args = jobsListArgs "c" "default" "cj" then .ok "j1"
  else if args = podsListArgs "c" "default" "job-name=j1" then .ok ""
  else .ok "zz"

/-- A request with an unsupported resource type and no label selector. -/
def winSvc : LogInput :=
  { resourceType := "service", name := "s", namespace_ := "default", context := "c" }

/-- An environment answering every invocation with empty output. -/
def wenvAll : Env := fun _ => .ok ""

/-- Environment extensionally equal to `wenvAll` but written differently. -/
def wenvAll2 : Env := fun args => if args = [] then .ok "" else .ok ""

/-- A request with an unsupported resource type and an empty-string label
selector. -/
def winSvcEmptySel : LogInput :=
  { resourceType := "service", name := "s", namespace_ := "default",
    labelSelector := some "", context := "c" }

/-- A request with an unsupported resource type and a non-empty label
selector. -/
def winSvcSel : LogInput :=
  { resourceType := "service", name := "s", namespace_ := "default",
    labelSelector := some "env=prod", context := "c" }

/-- Environment for the C10 witness. -/
def wenvC10 : Env := fun args =>
  if args = podsListArgs "c" "default" "env=prod" then .ok "" else .ok "x"

/-! # Helper lemmas -/

theorem length_filter_not {α : Type} (p : α → Bool) (l : List α) :
    (l.filter (fun a => !p a)).length = l.length - (l.filter p).length := by
  induction l with
  | nil => rfl
  | cons a t ih =>
    have hle := List.length_filter_le p t
    cases h : p a
    · simp [List.filter_cons, h, ih]
      omega
    · simp [List.filter_cons, h, ih]

theorem buildLogsMap_eq (env : Env) (input : LogInput) (context ns : String)
    (pods : List String) :
    ∀ acc : List (String × String),
      (∀ p ∈ pods, p ≠ "") → pods.Nodup →
      (∀ p ∈ pods, p ∉ acc.map Prod.fst) →
      buildLogsMap env input context ns pods acc =
        acc ++ pods.map (fun p => (p, fetchEntry env input context ns p)) := by
  induction pods with
  | nil => intro acc _ _ _; simp [buildLogsMap]
  | cons pod rest ih =>
    intro acc hne hnd hfresh
    have hpod : ¬ pod = "" := hne pod (List.mem_cons_self _ _)
    have hmem : pod ∉ acc.map Prod.fst := hfresh pod (List.mem_cons_self _ _)
    have hnd' := List.nodup_cons.mp hnd
    have hfresh' : ∀ p ∈ rest,
        p ∉ (acc ++ [(pod, fetchEntry env input context ns pod)]).map Prod.fst := by
      intro p hp h
      simp only [List.map_append, List.mem_append] at h
      rcases h with h' | h'
      · exact hfresh p (List.mem_cons_of_mem _ hp) h'
      · have hpp : p = pod := by simpa using h'
        exact hnd'.1 (hpp ▸ hp)
    rw [buildLogsMap, if_neg hpod, recordInsert, if_neg hmem,
      ih _ (fun p hp => hne p (List.mem_cons_of_mem _ hp)) hnd'.2 hfresh']
    simp

theorem buildJobLogs_eq (env : Env) (input : LogInput) (context ns : String)
    (jobs : List String) :
    ∀ acc, jobs.Nodup → (∀ j ∈ jobs, j ∉ acc.map Prod.fst) →
      buildJobLogs env input context ns jobs acc =
        acc ++ jobs.map (fun j => (j, extractLogsField
          (getLabelSelectorLogs env ("job-name=" ++ j) ns input context))) := by
  induction jobs with
  | nil => intro acc _ _; simp [buildJobLogs]
  | cons job rest ih =>
    intro acc hnd hfresh
    have hmem : job ∉ acc.map Prod.fst := hfresh job (List.mem_cons_self _ _)
    have hnd' := List.nodup_cons.mp hnd
    have hfresh' : ∀ j ∈ rest,
        j ∉ (acc ++ [(job, extractLogsField
          (getLabelSelectorLogs env ("job-name=" ++ job) ns input context))]).map
            Prod.fst := by
      intro j hj h
      simp only [List.map_append, List.mem_append] at h
      rcases h with h' | h'
      · exact hfresh j (List.mem_cons_of_mem _ hj) h'
      · have hjj : j = job := by simpa using h'
        exact hnd'.1 (hjj ▸ hj)
    rw [buildJobLogs, recordInsert, if_neg hmem, ih _ hnd'.2 hfresh']
    simp

theorem labelLogs_empty_aux (env : Env) (input : LogInput) (sel ns context raw : String)
    (hexec : env (podsListArgs context ns sel) = .ok raw)
    (hempty : jsTrim raw = "") :
    getLabelSelectorLogs env sel ns input context = .noPods (noPodsMessage sel ns) := by
  have hx : jsSplit (jsTrim raw) ' ' = [""] := by rw [hempty]; rfl
  simp only [getLabelSelectorLogs, hexec, hx]
  rw [if_pos (by simp)]

theorem handleCommandError_general (e : CmdError) (rd : String)
    (h1 : ¬(e.status = some 404 ∨ strIncludes e.message "not found" = true))
    (h2 : ¬ strIncludes e.message "a container name must be specified" = true) :
    handleCommandError e rd = .errGeneral (generalMessage rd e.message) e.message := by
  unfold handleCommandError
  rw [if_neg h1, if_neg h2]

/-! # Claim theorems -/

/-- **C2.** For every failed fetch whose message contains the marker phrase
that a container name must be specified and which does not satisfy the
not-found rule, the classifier returns the multi-container payload whose pod
name is extracted from a "for pod <X>" fragment (default `"unknown"`), whose
container lists are extracted from the "choose one of: [...]" and
"or one of the init containers: [...]" fragments split on whitespace and
trimmed (empty lists when absent), together with a suggestion string
enumerating the containers. -/
theorem multi_container_classification (e : CmdError) (rd : String)
    (hnf : ¬(e.status = some 404 ∨ strIncludes e.message "not found" = true))
    (hmc : strIncludes e.message "a container name must be specified" = true) :
    handleCommandError e rd =
      .errMultiContainer multiContainerErrorText (extractPodName e.message)
        (extractContainers e.message) (extractInitContainers e.message)
        (suggestionMessage (extractContainers e.message)
          (extractInitContainers e.message)) := by
  unfold handleCommandError
  rw [if_neg hnf, if_pos hmc]

/-- Witness for C2: the concrete message of the claim yields pod name
`web-1`, available containers `[app, sidecar]`, init containers `[init]`. -/
theorem multi_container_classification_witness :
    handleCommandError ⟨some 1, wmsgMulti⟩ "pod web-1" =
      .errMultiContainer multiContainerErrorText "web-1" ["app", "sidecar"] ["init"]
        "Please specify a container name using the \x27container\x27 parameter. Available containers: app, sidecar. Init containers: init" := by
  have h := multi_container_classification ⟨some 1, wmsgMulti⟩ "pod web-1"
    (by decide) (by decide)
  exact h.trans (by decide)

/-- **C3.** A failed fetch whose exit status is 404 or whose message contains
`"not found"` classifies as not-found with the synthesized message naming the
resource description, regardless of anything else in the message (this rule
is checked before the multi-container rule). -/
theorem not_found_classification_priority (e : CmdError) (rd : String)
    (h : e.status = some 404 ∨ strIncludes e.message "not found" = true) :
    handleCommandError e rd = .errNotFound (notFoundMessage rd) := by
  unfold handleCommandError
  rw [if_pos h]

/-- Witness for C3: a message containing both the not-found marker and the
multi-container marker still classifies as not-found. -/
theorem not_found_classification_priority_witness :
    handleCommandError ⟨none, wmsgBoth⟩ "pod web-1" =
      .errNotFound "Resource pod web-1 not found" ∧
    strIncludes wmsgBoth "a container name must be specified" = true := by
  refine ⟨?_, by decide⟩
  have h := not_found_classification_priority ⟨none, wmsgBoth⟩ "pod web-1"
    (Or.inr (by decide))
  exact h.trans (by decide)

/-- **C4.** A pod-set resolution whose listing succeeds with a raw output that
trims to the empty string (zero discovered pods) yields the explicit
"no matches" report naming the selector and namespace — the empty raw output
is parsed as zero pods, never as one pod named the empty string, and the
result is not an empty pod-to-outcome map. -/
theorem empty_pod_set_reports_no_matches (env : Env) (input : LogInput)
    (sel ns context raw : String)
    (hexec : env (podsListArgs context ns sel) = .ok raw)
    (hempty : jsTrim raw = "") :
    getLabelSelectorLogs env sel ns input context = .noPods (noPodsMessage sel ns) :=
  labelLogs_empty_aux env input sel ns context raw hexec hempty

/-- Witness for C4: an empty-string listing output produces the no-matches
message (and in particular not a one-entry map keyed by the empty string). -/
theorem empty_pod_set_reports_no_matches_witness :
    getLabelSelectorLogs wenvC4 "app=z" "default" winSel "ctx" =
      .noPods "No pods found with label selector \"app=z\" in namespace default" := by
  have h := empty_pod_set_reports_no_matches wenvC4 winSel "app=z" "default" "ctx" ""
    rfl rfl
  exact h.trans (by decide)

/-- **C1 counterexample.** The claim asserts that the `K` failed entries of a
fan-out are classified failures (the classifier's structured payload with a
kind); the code records each per-pod fetch failure as the bare string
`"Error: " ++ message` without invoking the classifier.  Concretely: a fetch
failure whose message satisfies the classifier's not-found rule is recorded
in the report as the raw error-marked string, while the classifier applied to
that same failure would produce the structured not-found payload, whose
synthesized message is not the recorded text. -/
theorem fanout_failure_unclassified_counterexample :
    getLabelSelectorLogs wenvC1nf "app=x" "default" winSel "ctx" =
      .selectorLogs "app=x" "default"
        [("p1", "log-text"), ("p2", "Error: pods \"p2\" not found")] ∧
    handleCommandError ⟨some 1, "pods \"p2\" not found"⟩ "pod p2" =
      .errNotFound (notFoundMessage "pod p2") ∧
    "Error: pods \"p2\" not found" ≠ notFoundMessage "pod p2" ∧
    payloadStatus (.selectorLogs "app=x" "default"
        [("p1", "log-text"), ("p2", "Error: pods \"p2\" not found")]) = none :=
  ⟨by decide, by decide, by decide, by decide⟩

/-- **C1 (amended).** For every fan-out over a discovered set of `N` distinct
pod identifiers of which exactly `K` individual fetches fail, the report is
the selector-logs envelope with exactly `N` entries keyed by the pod
identifiers in discovery order; `K` entries are failures recorded as
error-marked raw message strings (`"Error: " ++ message`, not
classifier-structured payloads) and `N − K` are the raw fetched log texts
(`fetchEntry`), so one failure never removes an entry, never prevents the
remaining fetches from being recorded, and never raises past the remaining
identifiers. -/
theorem fanout_report_complete (env : Env) (input : LogInput)
    (sel ns context raw : String) (pods : List String) (K : Nat)
    (hexec : env (podsListArgs context ns sel) = .ok raw)
    (hpods : jsSplit (jsTrim raw) ' ' = pods)
    (hne : pods ≠ [])
    (hnonempty : ∀ p ∈ pods, p ≠ "")
    (hnd : pods.Nodup)
    (hK : (pods.filter (fun p => fetchFails env input context ns p)).length = K) :
    ∃ m, getLabelSelectorLogs env sel ns input context = .selectorLogs sel ns m ∧
      m.map Prod.fst = pods ∧
      m.length = pods.length ∧
      (m.filter (fun e => fetchFails env input context ns e.1)).length = K ∧
      (m.filter (fun e => !fetchFails env input context ns e.1)).length =
        pods.length - K ∧
      ∀ e ∈ m, e.2 = fetchEntry env input context ns e.1 := by
  have hcond : ¬(pods.length = 0 ∨ (pods.length = 1 ∧ pods.headD "" = "")) := by
    rintro (h0 | ⟨h1, hh⟩)
    · exact hne (List.length_eq_zero.mp h0)
    · obtain ⟨a, rfl⟩ := List.length_eq_one.mp h1
      exact hnonempty a (List.mem_singleton_self a) (by simpa using hh)
  have hmain : getLabelSelectorLogs env sel ns input context =
      .selectorLogs sel ns
        (pods.map (fun p => (p, fetchEntry env input context ns p))) := by
    simp only [getLabelSelectorLogs, hexec, hpods]
    rw [if_neg hcond,
      buildLogsMap_eq env input context ns pods [] hnonempty hnd (by simp)]
    simp
  refine ⟨pods.map (fun p => (p, fetchEntry env input context ns p)),
    hmain, by rw [List.map_map]; exact List.map_id pods, by simp, ?_, ?_, ?_⟩
  · rw [List.filter_map, List.length_map]
    exact hK
  · rw [List.filter_map, List.length_map]
    have h2 := length_filter_not (fun p => fetchFails env input context ns p) pods
    rw [hK] at h2
    exact h2
  · intro e he
    obtain ⟨p, _, rfl⟩ := List.mem_map.mp he
    rfl

/-- Witness for C1: three discovered pods of which exactly one fetch fails
yield a three-entry report with one error-marked entry and two raw texts. -/
theorem fanout_report_complete_witness :
    (∃ m, getLabelSelectorLogs wenvC1 "app=x" "default" winSel "ctx" =
        .selectorLogs "app=x" "default" m ∧
      m.map Prod.fst = ["p1", "p2", "p3"] ∧
      m.length = ["p1", "p2", "p3"].length ∧
      (m.filter (fun e => fetchFails wenvC1 winSel "ctx" "default" e.1)).length = 1 ∧
      (m.filter (fun e => !fetchFails wenvC1 winSel "ctx" "default" e.1)).length =
        ["p1", "p2", "p3"].length - 1 ∧
      ∀ e ∈ m, e.2 = fetchEntry wenvC1 winSel "ctx" "default" e.1) ∧
    getLabelSelectorLogs wenvC1 "app=x" "default" winSel "ctx" =
      .selectorLogs "app=x" "default"
        [("p1", "log-text"), ("p2", "Error: boom"), ("p3", "log-text")] :=
  ⟨fanout_report_complete wenvC1 winSel "app=x" "default" "ctx" "p1 p2 p3"
    ["p1", "p2", "p3"] 1 rfl rfl (by decide) (by decide) (by decide) (by decide),
   by decide⟩

/-- **C5 counterexample.** The claim asserts that a deployment log request
whose deployment cannot be read "fails with a general classification"; on a
read failure whose message contains `"not found"`, the code classifies the
failure as not-found instead. -/
theorem deployment_read_failure_not_general_counterexample :
    kubectlLogs wenvDepBad winDep =
      .ok (.errNotFound "Resource deployment web not found") ∧
    payloadStatus (.errNotFound "Resource deployment web not found") ≠
      some "general_error" :=
  ⟨by decide, by decide⟩

/-- **C5 (amended).** For every deployment log request, the resolver reads the
deployment's match-labels and hands the pod discoverer the selector obtained
by rendering each `key=value` pair and comma-joining them in iteration order;
if the selector payload cannot be parsed the request fails with a general
classification, and if the deployment cannot be read the captured failure is
routed through the error classifier (not-found messages therefore classify as
not-found rather than general). -/
theorem deployment_resolution (env : Env) (input : LogInput)
    (hk : jsToLower input.resourceType = "deployment") :
    (∀ raw entries,
      env (deploymentSelectorArgs input.context (nsOf input) input.name) = .ok raw →
      parseMatchLabels (replaceChar '\x27' '"' (jsTrim raw)) = some entries →
      kubectlLogs env input = .ok (getLabelSelectorLogs env
        (joinWith "," (entries.map (fun kv => kv.1 ++ "=" ++ kv.2)))
        (nsOf input) input input.context)) ∧
    (∀ e,
      env (deploymentSelectorArgs input.context (nsOf input) input.name) = .error e →
      kubectlLogs env input = .ok (handleCommandError e ("deployment " ++ input.name))) ∧
    (∀ raw,
      env (deploymentSelectorArgs input.context (nsOf input) input.name) = .ok raw →
      parseMatchLabels (replaceChar '\x27' '"' (jsTrim raw)) = none →
      kubectlLogs env input =
        .ok (.errGeneral
          (generalMessage ("deployment " ++ input.name) jsonSyntaxErrorMessage)
          jsonSyntaxErrorMessage)) := by
  refine ⟨?_, ?_, ?_⟩
  · intro raw entries hexec hparse
    simp [kubectlLogs, hk, hexec, hparse]
  · intro e hexec
    simp [kubectlLogs, hk, hexec]
  · intro raw hexec hparse
    have hgen := handleCommandError_general ⟨none, jsonSyntaxErrorMessage⟩
      ("deployment " ++ input.name) (by decide) (by decide)
    simp [kubectlLogs, hk, hexec, hparse, hgen]

/-- Witness for the amended C5: match-labels `{app: "x", tier: "web"}` derive
exactly the selector `app=x,tier=web` handed to the pod discoverer. -/
theorem deployment_resolution_witness :
    kubectlLogs wenvDepGood winDep =
      .ok (getLabelSelectorLogs wenvDepGood "app=x,tier=web" "default" winDep "c") ∧
    joinWith ","
      ([("app", "x"), ("tier", "web")].map (fun kv => kv.1 ++ "=" ++ kv.2)) =
      "app=x,tier=web" := by
  have h := (deployment_resolution wenvDepGood winDep rfl).1
    "\x7b\"app\":\"x\",\"tier\":\"web\"\x7d" [("app", "x"), ("tier", "web")]
    rfl (by decide)
  exact ⟨h, by decide⟩

/-- **C6.** For every cronjob log request: when the dependent-job discovery
(selector `job-name=<cronjobName>` against the jobs collection) returns zero
jobs, the report is exactly the "No jobs found for cronjob <name> in
namespace <ns>" message and the outcome is independent of every other
external call (no log fetch is attempted); otherwise each discovered
dependent job is resolved through the selector `job-name=<jobName>` and its
flat pod aggregation's `logs` field is nested under the job's key. -/
theorem cronjob_resolution (env : Env) (input : LogInput)
    (hk : jsToLower input.resourceType = "cronjob") :
    (∀ raw, env (jobsListArgs input.context (nsOf input) input.name) = .ok raw →
      jsTrim raw = "" →
      kubectlLogs env input = .ok (.noJobs (noJobsMessage input.name (nsOf input))) ∧
      ∀ env2 : Env,
        env2 (jobsListArgs input.context (nsOf input) input.name) =
          env (jobsListArgs input.context (nsOf input) input.name) →
        kubectlLogs env2 input = .ok (.noJobs (noJobsMessage input.name (nsOf input)))) ∧
    (∀ raw jobs, env (jobsListArgs input.context (nsOf input) input.name) = .ok raw →
      jsSplit (jsTrim raw) ' ' = jobs →
      ¬(jobs.length = 0 ∨ (jobs.length = 1 ∧ jobs.headD "" = "")) →
      jobs.Nodup →
      kubectlLogs env input = .ok (.cronjobLogs input.name (nsOf input)
        (jobs.map (fun j => (j, extractLogsField
          (getLabelSelectorLogs env ("job-name=" ++ j) (nsOf input) input
            input.context)))))) := by
  constructor
  · intro raw hexec htrim
    have hsplit : jsSplit (jsTrim raw) ' ' = [""] := by rw [htrim]; rfl
    constructor
    · simp [kubectlLogs, hk, hexec, hsplit]
    · intro env2 h2
      rw [hexec] at h2
      simp [kubectlLogs, hk, h2, hsplit]
  · intro raw jobs hexec hsplit hcond hnd
    have hbuild := buildJobLogs_eq env input input.context (nsOf input) jobs []
      hnd (by simp)
    simp only [List.nil_append] at hbuild
    simp [kubectlLogs, hk, hexec, hsplit, hcond, hbuild]
    constructor
    · intro h
      exact hcond (Or.inl (by simp [h]))
    · intro h1 hh
      obtain ⟨a, rfl⟩ := List.length_eq_one.mp h1
      exact hcond (Or.inr ⟨h1, by simpa using hh⟩)

/-- Witness for C6: zero dependent jobs yield exactly the no-jobs message (a
non-error envelope); two dependent jobs yield the nested per-job report. -/
theorem cronjob_resolution_witness :
    kubectlLogs wenvCronEmpty winCron =
      .ok (.noJobs "No jobs found for cronjob cj in namespace default") ∧
    kubectlLogs wenvCronJobs winCron =
      .ok (.cronjobLogs "cj" "default"
        [("j1", some [("p1", "L1")]), ("j2", none)]) ∧
    payloadIsError (.noJobs (noJobsMessage "cj" "default")) = false := by
  refine ⟨?_, ?_, by decide⟩
  · have h := ((cronjob_resolution wenvCronEmpty winCron rfl).1 "" rfl rfl).1
    exact h.trans (by decide)
  · have h := (cronjob_resolution wenvCronJobs winCron rfl).2 "j1 j2" ["j1", "j2"]
      rfl rfl (by decide) (by decide)
    exact h.trans (by decide)

/-- **C7.** A request whose (lower-cased) resource type is none of `pod`,
`deployment`, `job`, `cronjob` and which carries no (truthy) label selector
fails with the invalid-request configuration error; the conclusion holds for
every environment, so no external call influences — or is needed for — the
outcome. -/
theorem unsupported_resource_type_rejected (env : Env) (input : LogInput)
    (h1 : jsToLower input.resourceType ≠ "pod")
    (h2 : jsToLower input.resourceType ≠ "deployment")
    (h3 : jsToLower input.resourceType ≠ "job")
    (h4 : jsToLower input.resourceType ≠ "cronjob")
    (h5 : strTruthy input.labelSelector = false) :
    kubectlLogs env input =
      .error ⟨.invalidRequest,
        "Unsupported resource type: " ++ jsToLower input.resourceType⟩ := by
  simp [kubectlLogs, h1, h2, h3, h4, h5]

/-- Witness for C7: a `service` request without a label selector is rejected
as an unsupported resource type. -/
theorem unsupported_resource_type_rejected_witness :
    kubectlLogs wenvAll winSvc =
      .error ⟨.invalidRequest, "Unsupported resource type: service"⟩ := by
  have h := unsupported_resource_type_rejected wenvAll winSvc
    (by decide) (by decide) (by decide) (by decide) (by decide)
  exact h.trans (by decide)

/-- **C8.** The log-processing pipeline is a deterministic function of the
request and of the external call results: two runs of the same `LogRequest`
against environments whose every invocation returns the same outcome (an
unchanged target set) produce identical reports — in particular the same
identifier keys in the same order and the same classification kind for each
key. -/
theorem pipeline_deterministic (env1 env2 : Env) (input : LogInput)
    (h : ∀ args, env1 args = env2 args) :
    kubectlLogs env1 input = kubectlLogs env2 input := by
  have he : env1 = env2 := funext h
  rw [he]

/-- Witness for C8: two syntactically different but pointwise-equal
environments yield the same report. -/
theorem pipeline_deterministic_witness :
    kubectlLogs wenvAll winSvcSel = kubectlLogs wenvAll2 winSvcSel :=
  pipeline_deterministic wenvAll wenvAll2 winSvcSel
    (by intro args; simp [wenvAll, wenvAll2])

/-- **C9.** In the cronjob two-level aggregation each dependent job's entry is
the `logs` field of that job's single-level result; a dependent job whose pod
discovery finds no pods produces the "no pods found" message envelope, which
has no `logs` field, so the nested report maps that job's key to an absent
(`none`) value — while the flat resolution path returns the explicit
no-matches message for the same selector. -/
theorem cronjob_nested_missing_logs_entry (env : Env) (input : LogInput)
    (rawJ rawP j : String)
    (hk : jsToLower input.resourceType = "cronjob")
    (hjobs : env (jobsListArgs input.context (nsOf input) input.name) = .ok rawJ)
    (hsplit : jsSplit (jsTrim rawJ) ' ' = [j])
    (hj : j ≠ "")
    (hpods : env (podsListArgs input.context (nsOf input) ("job-name=" ++ j)) = .ok rawP)
    (hempty : jsTrim rawP = "") :
    kubectlLogs env input = .ok (.cronjobLogs input.name (nsOf input) [(j, none)]) ∧
    getLabelSelectorLogs env ("job-name=" ++ j) (nsOf input) input input.context =
      .noPods (noPodsMessage ("job-name=" ++ j) (nsOf input)) := by
  have hflat := labelLogs_empty_aux env input ("job-name=" ++ j) (nsOf input)
    input.context rawP hpods hempty
  refine ⟨?_, hflat⟩
  have hcond : ¬(([j] : List String).length = 0 ∨
      (([j] : List String).length = 1 ∧ ([j] : List String).headD "" = "")) := by
    rintro (h0 | ⟨_, hh⟩)
    · simp at h0
    · exact hj (by simpa using hh)
  simp [kubectlLogs, hk, hjobs, hsplit, hcond, buildJobLogs, recordInsert, hflat,
    extractLogsField, hj]

/-- Witness for C9: one dependent job backed by no pods yields the nested
report `[(j1, none)]`, while the flat path for the same selector yields the
explicit no-matches message. -/
theorem cronjob_nested_missing_logs_entry_witness :
    kubectlLogs wenvCronOne winCron = .ok (.cronjobLogs "cj" "default" [("j1", none)]) ∧
    getLabelSelectorLogs wenvCronOne "job-name=j1" "default" winCron "c" =
      .noPods "No pods found with label selector \"job-name=j1\" in namespace default" := by
  have h := cronjob_nested_missing_logs_entry wenvCronOne winCron "j1" "" "j1"
    rfl rfl rfl (by decide) rfl rfl
  exact ⟨h.1.trans (by decide), h.2.trans (by decide)⟩

/-- **C10 counterexample.** A request whose resource type is unsupported but
which supplies a label selector — the empty string — is not routed to
label-group resolution: it reaches the unsupported-resource-type error even
though its label selector is present. -/
theorem empty_label_selector_not_routed :
    winSvcEmptySel.labelSelector = some "" ∧
    kubectlLogs wenvAll winSvcEmptySel =
      .error ⟨.invalidRequest, "Unsupported resource type: service"⟩ :=
  ⟨rfl, by decide⟩

/-- **C10 (amended).** A request whose (lower-cased) resource type is none of
`pod`, `deployment`, `job`, `cronjob` but which supplies a *non-empty* label
selector is routed to label-group resolution with that selector verbatim; the
unsupported-type error is reached only when the label selector is absent or
empty. -/
theorem label_group_fallback (env : Env) (input : LogInput) (s : String)
    (h1 : jsToLower input.resourceType ≠ "pod")
    (h2 : jsToLower input.resourceType ≠ "deployment")
    (h3 : jsToLower input.resourceType ≠ "job")
    (h4 : jsToLower input.resourceType ≠ "cronjob")
    (hsel : input.labelSelector = some s)
    (hne : s ≠ "") :
    kubectlLogs env input =
      .ok (getLabelSelectorLogs env s (nsOf input) input input.context) := by
  simp [kubectlLogs, h1, h2, h3, h4, hsel, strTruthy, hne]

/-- Witness for the amended C10: a `service` request with label selector
`env=prod` is resolved through the label-group path (here finding no pods). -/
theorem label_group_fallback_witness :
    kubectlLogs wenvC10 winSvcSel =
      .ok (getLabelSelectorLogs wenvC10 "env=prod" "default" winSvcSel "c") ∧
    kubectlLogs wenvC10 winSvcSel =
      .ok (.noPods "No pods found with label selector \"env=prod\" in namespace default") := by
  have h := label_group_fallback wenvC10 winSvcSel "env=prod"
    (by decide) (by decide) (by decide) (by decide) rfl (by decide)
  exact ⟨h, h.trans (by decide)⟩

end KubectlLogs
